import Mathlib

/-!
Verification of the yew-macro hook transformation engine
(`packages/yew-macro/src/hook/mod.rs`).

The engine takes a Rust function definition intended as a hook
("stateful unit"), validates it, rewrites its signature and body, and
emits an equivalent definition implementing the framework's `Hook`
interface.  We embed the data model (a simplified Rust surface AST),
the validator (`impl Parse for HookFn`), the documentation synthesizer
(`HookFn::doc_attr`) and the code emitter (`hook_impl`) from the source
file.  The signature rewriter (`signature.rs`), body rewriter
(`body.rs`) and lifetime collector (`lifetime.rs`) are declared by
`mod.rs` but their source files are not part of this tree, so those
parts are modelled from the specification (each such definition is
marked `Modelled from the spec:`).
-/

namespace YewMacro

/-! ## Rust surface AST (the part the engine inspects) -/

mutual

/-- A Rust type as the engine distinguishes them: the unit type, a path
type with generic arguments (e.g. `i32`, `Vec<T>`), a reference type
with an optional lifetime, or an opaque/existential `impl Trait` type
carrying its bound names. -/
inductive Ty : Type where
  | unit : Ty
  | path (name : String) (args : TyList) : Ty
  | ref (lifetime : Option String) (inner : Ty) : Ty
  | implTrait (bounds : List String) : Ty

/-- A list of types (generic arguments), kept as a dedicated mutual
inductive so that structural recursion over `Ty` stays simple. -/
inductive TyList : Type where
  | nil : TyList
  | cons (head : Ty) (tail : TyList) : TyList

end

/-- A generic parameter: a lifetime parameter or a type parameter.
Lifetime names are stored without the leading tick (`hook` stands for
the Rust lifetime written with a tick prefix). -/
inductive GenericParam : Type where
  | lifetime (name : String)
  | typeParam (name : String)
deriving DecidableEq

/-- A function parameter: pattern name and declared type. -/
structure Param : Type where
  name : String
  ty : Ty

/-- A return type annotation: absent (`ReturnType::Default`) or a
declared type (`ReturnType::Type`). -/
inductive ReturnType : Type where
  | default : ReturnType
  | ty (t : Ty) : ReturnType

mutual

/-- A Rust expression, restricted to the shapes the body rewriter
distinguishes: literals, path references, call expressions, `if` (the
else branch possibly the empty block), `loop`, `match`, plain blocks,
and closures. -/
inductive HExpr : Type where
  | lit (n : Nat) : HExpr
  | path (name : String) : HExpr
  | call (callee : String) (args : HArgs) : HExpr
  | ifE (cond : HExpr) (thenBr : HBlock) (elseBr : HBlock) : HExpr
  | loopE (body : HBlock) : HExpr
  | matchE (scrut : HExpr) (arms : HArms) : HExpr
  | blockE (body : HBlock) : HExpr
  | closure (params : List String) (body : HExpr) : HExpr

/-- Argument list of a call expression. -/
inductive HArgs : Type where
  | nil : HArgs
  | cons (head : HExpr) (tail : HArgs) : HArgs

/-- Match arms: a pattern (kept opaque as text) and an arm body. -/
inductive HArms : Type where
  | nil : HArms
  | cons (pat : String) (body : HExpr) (tail : HArms) : HArms

/-- A statement: an expression statement, a `let` binding, or a nested
function item definition (whose body is opaque to the body rewriter). -/
inductive HStmt : Type where
  | exprS (e : HExpr) : HStmt
  | letS (name : String) (value : HExpr) : HStmt
  | fnItem (name : String) (params : List Param) (body : HBlock) : HStmt

/-- A block: an ordered sequence of statements. -/
inductive HBlock : Type where
  | nil : HBlock
  | cons (head : HStmt) (tail : HBlock) : HBlock

end

/-- Visibility marker of an item (syn `Visibility`). -/
inductive Vis : Type where
  | pub : Vis
  | inherited : Vis
deriving DecidableEq

/-- An attribute attached to an item; the engine treats attributes as
opaque passthrough metadata (name/value pair suffices). -/
structure Attr : Type where
  name : String
  value : String

/-- A function signature (the fields of syn `Signature` that
`hook/mod.rs` reads): the four modifier flags, the identifier, the
generic parameter list, the parameters and the return type. -/
structure Signature : Type where
  constness : Bool
  asyncness : Bool
  unsafety : Bool
  abi : Bool
  ident : String
  generics : List GenericParam
  inputs : List Param
  output : ReturnType

/-- A parsed function item (syn `ItemFn`): attributes, visibility,
signature and body block. -/
structure ItemFn : Type where
  attrs : List Attr
  vis : Vis
  sig : Signature
  block : HBlock

/-! ## Definition Validator (`impl Parse for HookFn`, mod.rs 23-51) -/

/-- The validated hook definition; the source keeps the parsed
`ItemFn` unchanged inside. -/
structure HookFn : Type where
  inner : ItemFn

/-- The source span a diagnostic points at: each `emit_error!` in
`HookFn::parse` targets the span of the offending construct
(`sig.asyncness`, `sig.constness`, `sig.abi`, `sig.unsafety`,
`sig.ident`). -/
inductive DiagLoc : Type where
  | asyncness : DiagLoc
  | constness : DiagLoc
  | abi : DiagLoc
  | unsafety : DiagLoc
  | ident : DiagLoc
deriving DecidableEq

/-- A diagnostic: source span plus message, as handed to the
process-wide `proc_macro_error` sink by `emit_error!`. -/
structure Diagnostic : Type where
  loc : DiagLoc
  msg : String

/-- A single apostrophe character, used in the diagnostic messages of
the source. -/
def sq : String := (Char.ofNat 39).toString

/-- Rust's `str::starts_with`, modelled at the character level: the
pattern's characters are a prefix of the string's characters. -/
def strStartsWith (s pre : String) : Bool := pre.data.isPrefixOf s.data

/-- Diagnostic messages, verbatim from mod.rs lines 30, 34, 38, 42, 46. -/
def asyncMsg : String := "async functions can" ++ sq ++ "t be hooks"

/-- Message of the const-modifier diagnostic. -/
def constMsg : String := "const functions can" ++ sq ++ "t be hooks"

/-- Message of the extern-abi diagnostic. -/
def abiMsg : String := "extern functions can" ++ sq ++ "t be hooks"

/-- Message of the unsafe-modifier diagnostic. -/
def unsafeMsg : String := "unsafe functions can" ++ sq ++ "t be hooks"

/-- Message of the naming-convention diagnostic. -/
def nameMsg : String := "hooks must have a name starting with `use_`"

/-- `impl Parse for HookFn` (mod.rs 23-51): each disallowed modifier
and the missing `use_` prefix emit one non-fatal diagnostic; the
function is returned unchanged in all cases (`Ok(Self { inner: func })`).
The global diagnostic sink is made explicit as the second component. -/
def HookFn.parse (func : ItemFn) : HookFn × List Diagnostic :=
  let sig := func.sig
  let ds : List Diagnostic :=
    (if sig.asyncness then [⟨.asyncness, asyncMsg⟩] else []) ++
    (if sig.constness then [⟨.constness, constMsg⟩] else []) ++
    (if sig.abi then [⟨.abi, abiMsg⟩] else []) ++
    (if sig.unsafety then [⟨.unsafety, unsafeMsg⟩] else []) ++
    (if strStartsWith sig.ident "use_" then [] else [⟨.ident, nameMsg⟩])
  (⟨func⟩, ds)

/-! ## Body Rewriter

Modelled from the spec (§4.3): `body.rs` is declared by `mod.rs`
(`mod body; pub use body::BodyRewriter;`) but its source file is not in
this tree.  The contract: every call expression whose callee name
matches the `use_` naming convention receives the execution-context
reference as a new first argument, with the original arguments shifted
right; the traversal recurses into blocks, conditionals, loops and
match arms, but not into the bodies of nested function items or
closures, and leaves every non-invocation expression structurally
unchanged. -/

namespace BodyRewriter

/-- Callee-name recognition of a nested stateful-unit invocation: the
same `use_` prefix convention that §4.1 enforces on definitions. -/
def isHookCall (callee : String) : Bool := strStartsWith callee "use_"

mutual

/-- Modelled from the spec: rewrite one expression, threading the
context parameter name `ctx`.  Calls recognized by `isHookCall` get
`ctx` prepended; closures are opaque (no recursion into their body). -/
def visitExpr (ctx : String) : HExpr → HExpr
  | .lit n => .lit n
  | .path name => .path name
  | .call callee args =>
    let args' := visitArgs ctx args
    if isHookCall callee then .call callee (.cons (.path ctx) args')
    else .call callee args'
  | .ifE cond thenBr elseBr =>
    .ifE (visitExpr ctx cond) (visitBlock ctx thenBr) (visitBlock ctx elseBr)
  | .loopE body => .loopE (visitBlock ctx body)
  | .matchE scrut arms => .matchE (visitExpr ctx scrut) (visitArms ctx arms)
  | .blockE body => .blockE (visitBlock ctx body)
  | .closure params body => .closure params body

/-- Rewrite every argument of a call. -/
def visitArgs (ctx : String) : HArgs → HArgs
  | .nil => .nil
  | .cons e rest => .cons (visitExpr ctx e) (visitArgs ctx rest)

/-- Rewrite every match arm body. -/
def visitArms (ctx : String) : HArms → HArms
  | .nil => .nil
  | .cons pat body rest => .cons pat (visitExpr ctx body) (visitArms ctx rest)

/-- Rewrite one statement; nested function items are opaque. -/
def visitStmt (ctx : String) : HStmt → HStmt
  | .exprS e => .exprS (visitExpr ctx e)
  | .letS name value => .letS name (visitExpr ctx value)
  | .fnItem name params body => .fnItem name params body

/-- Rewrite a whole block (the entry point used by `hook_impl` via
`visit_mut::visit_block_mut`). -/
def visitBlock (ctx : String) : HBlock → HBlock
  | .nil => .nil
  | .cons s rest => .cons (visitStmt ctx s) (visitBlock ctx rest)

end

end BodyRewriter

/-! ## Signature Rewriter (`HookSignature`, signature.rs)

`signature.rs` is declared by `mod.rs` (`mod signature; use
signature::HookSignature;`) but its source file is not in this tree;
the following definitions are modelled from the spec (§3
`RewrittenSignature`, §4.2). -/

mutual

/-- Does a type-parameter name occur in a type?  Used for the phantom
computation of §4.2 step 5. -/
def Ty.mentionsTypeParam (p : String) : Ty → Bool
  | .unit => false
  | .path name args => name == p || TyList.mentionsTypeParam p args
  | .ref _ inner => Ty.mentionsTypeParam p inner
  | .implTrait _ => false

/-- Occurrence of a type parameter in a list of generic arguments. -/
def TyList.mentionsTypeParam (p : String) : TyList → Bool
  | .nil => false
  | .cons t ts => Ty.mentionsTypeParam p t || TyList.mentionsTypeParam p ts

end

mutual

/-- Does a lifetime name occur in a type? -/
def Ty.mentionsLifetime (lt : String) : Ty → Bool
  | .unit => false
  | .path _ args => TyList.mentionsLifetime lt args
  | .ref l inner => l == some lt || Ty.mentionsLifetime lt inner
  | .implTrait _ => false

/-- Occurrence of a lifetime in a list of generic arguments. -/
def TyList.mentionsLifetime (lt : String) : TyList → Bool
  | .nil => false
  | .cons t ts => Ty.mentionsLifetime lt t || TyList.mentionsLifetime lt ts

end

/-- The rewritten signature (spec §3 `RewrittenSignature`): the
signature for the publicly emitted function, the resolved output type,
the `needs_boxing` flag, and the distinguished unit lifetime
(`hook_lifetime`, the Rust lifetime written `'hook`). -/
structure HookSignature : Type where
  hook_lifetime : String
  sig : Signature
  output_type : Ty
  needs_boxing : Bool

/-- Modelled from the spec: `HookSignature::rewrite` (signature.rs is
not in this tree).

* The public generic parameter list is kept unchanged (§4.2 step 1:
  "Clone the declared generic parameter list unchanged for the
  publicly visible function"); the spec describes no other change to
  the publicly visible parameter or return annotations, so `sig` is
  kept as given (elided-lifetime renaming by the absent `lifetime.rs`
  collector is not modelled; no claim depends on it).
* `output_type` is the declared return type, or the unit type when the
  annotation is absent (§3: "the resolved output type (the declared
  return type, or an inferred placeholder unit type if absent)").
* `needs_boxing`: the spec is inconsistent here — §4.2 step 2 and the
  §8 bullet state `true` unless the return is opaque/existential,
  while end-to-end scenario B (`use_thing() -> impl Clone` ⇒
  `needs_boxing = true`, boxed adapter), the glossary ("Boxed-provider:
  … used when the unit's output type cannot be named as a struct
  field") and the caller in mod.rs (the struct branch spells the
  output type as the `Output` associated type, impossible for an
  impl-trait; the boxed branch special-cases `Type::ImplTrait`) all
  require the opposite.  We follow the reading forced by the caller
  and scenario B: `needs_boxing` is true exactly when the declared
  return type is an impl-trait.
* `hook_lifetime` is the synthesized unit lifetime of §4.2 step 3. -/
def HookSignature.rewrite (sig : Signature) : HookSignature :=
  { hook_lifetime := "hook"
    sig := sig
    output_type :=
      match sig.output with
      | .default => .unit
      | .ty t => t
    needs_boxing :=
      match sig.output with
      | .ty (.implTrait _) => true
      | _ => false }

/-- Modelled from the spec (§4.2 step 4): the argument-binding names,
in the stable order of the original parameter list. -/
def HookSignature.input_args (hs : HookSignature) : List String :=
  hs.sig.inputs.map Param.name

/-- Modelled from the spec: the declared argument types, in parameter
order (the field types of the generated data-holder struct). -/
def HookSignature.input_types (hs : HookSignature) : List Ty :=
  hs.sig.inputs.map Param.ty

/-- Modelled from the spec (§4.2 step 5): every declared type
parameter that is not already present in a concrete runtime field
(i.e. mentioned by no input type) is preserved through a zero-size
phantom marker. -/
def HookSignature.phantom_types (hs : HookSignature) : List String :=
  hs.sig.generics.filterMap fun
    | .typeParam n =>
      if hs.sig.inputs.any (fun p => p.ty.mentionsTypeParam n) then none else some n
    | .lifetime _ => none

/-- Modelled from the spec (§4.2 step 5): the declared lifetime
parameters not already present in an input type, preserved as phantom
reference markers. -/
def HookSignature.phantom_lifetimes (hs : HookSignature) : List String :=
  hs.sig.generics.filterMap fun
    | .lifetime l =>
      if hs.sig.inputs.any (fun p => p.ty.mentionsLifetime l) then none else some l
    | .typeParam _ => none

/-- Modelled from the spec: the generic arguments repeated at the
generated call sites (`HookProvider::<…>::new`, forwarding the declared
parameters in order). -/
def HookSignature.call_generics (hs : HookSignature) : List GenericParam :=
  hs.sig.generics

/-- The type-parameter names of a generic parameter list (used by the
boxed branch's turbofish `inner_fn::<…>`). -/
def typeParamNames (generics : List GenericParam) : List String :=
  generics.filterMap fun
    | .typeParam n => some n
    | .lifetime _ => none

/-! ## Documentation Synthesizer (`HookFn::doc_attr`, mod.rs 53-108)

The source renders the original `ItemFn` with its body replaced by the
single path expression `__yew_macro_dummy_function_body__` (via
`prettyplease::unparse`, an external printing capability, modelled
below by a concrete deterministic renderer), then textually replaces
the marker by the elision notice. -/

mutual

/-- Render a type to text (stands in for the external pretty-printer
on the type fragment of the signature). -/
def Ty.render : Ty → String
  | .unit => "()"
  | .path name args =>
    match args with
    | .nil => name
    | _ => name ++ "<" ++ TyList.render args ++ ">"
  | .ref l inner =>
    (match l with
     | none => "&"
     | some lt => "&" ++ sq ++ lt ++ " ") ++ Ty.render inner
  | .implTrait bounds => "impl " ++ String.intercalate " + " bounds

/-- Render a comma-separated list of types. -/
def TyList.render : TyList → String
  | .nil => ""
  | .cons t .nil => Ty.render t
  | .cons t ts => Ty.render t ++ ", " ++ TyList.render ts

end

/-- Render a generic parameter (lifetimes with their tick). -/
def GenericParam.render : GenericParam → String
  | .lifetime l => sq ++ l
  | .typeParam n => n

/-- Render a generic parameter list, `<…>` when non-empty. -/
def renderGenerics (generics : List GenericParam) : String :=
  match generics with
  | [] => ""
  | _ => "<" ++ String.intercalate ", " (generics.map GenericParam.render) ++ ">"

/-- Render the parameter list. -/
def renderParams (inputs : List Param) : String :=
  String.intercalate ", " (inputs.map fun p => p.name ++ ": " ++ p.ty.render)

/-- Render the return annotation. -/
def ReturnType.render : ReturnType → String
  | .default => ""
  | .ty t => " -> " ++ t.render

/-- Render a visibility marker. -/
def Vis.render : Vis → String
  | .pub => "pub "
  | .inherited => ""

/-- The part of the rendered function that precedes the body text. -/
def renderPre (f : ItemFn) : String :=
  f.vis.render ++ "fn " ++ f.sig.ident ++ renderGenerics f.sig.generics ++
    "(" ++ renderParams f.sig.inputs ++ ")" ++ f.sig.output.render ++
    " \x7b\n    "

/-- The part of the rendered function that follows the body text. -/
def renderPost (_f : ItemFn) : String := "\n\x7d\n"

/-- Render the whole function with the given body text in body
position (the stand-in for `prettyplease::unparse` applied to the
`ItemFn` whose block holds a single expression statement). -/
def renderFnWithBody (f : ItemFn) (body : String) : String :=
  renderPre f ++ body ++ renderPost f

/-- The dummy path expression the source puts in body position before
rendering (mod.rs line 67). -/
def dummyBodyMarker : String := "__yew_macro_dummy_function_body__"

/-- The human-readable elision notice substituted for the marker
(mod.rs line 89). -/
def elisionNotice : String := "/* implementation omitted */"

/-- Replace every (non-overlapping, leftmost-first) occurrence of
`pat` by `rep`, as Rust's `str::replace` does; character-list level. -/
def replaceList (pat rep : List Char) : List Char → List Char
  | [] => []
  | c :: rest =>
    if 1 ≤ pat.length ∧ pat.isPrefixOf (c :: rest) = true then
      rep ++ replaceList pat rep (List.drop pat.length (c :: rest))
    else
      c :: replaceList pat rep rest
termination_by l => l.length
decreasing_by
  · simp only [List.length_drop, List.length_cons]
    omega
  · simp only [List.length_cons]
    omega

/-- `String.replace` of the source, on our explicit model. -/
def strReplace (s pat rep : String) : String :=
  ⟨replaceList pat.data rep.data s.data⟩

/-- The fixed documentation note template of mod.rs lines 78-91,
wrapped around the rendered signature. -/
def docNote (rendered : String) : String :=
  "\n# Note\n\nWhen used in function components and hooks, this hook is equivalent to:\n\n```\n"
    ++ rendered ++ "\n```\n"

/-- `HookFn::doc_attr`'s documentation text (mod.rs 57-93): render the
function with the dummy marker in body position, substitute the
elision notice for the marker, and embed the result in the note
template. -/
def HookFn.doc_attr_text (hook : HookFn) : String :=
  let sig_formatted := renderFnWithBody hook.inner dummyBodyMarker
  docNote (strReplace sig_formatted dummyBodyMarker elisionNotice)

/-- `HookFn::doc_attr` (mod.rs 54-108): a `doc = "…"` name-value
attribute holding the synthesized text. -/
def HookFn.doc_attr (hook : HookFn) : Attr :=
  { name := "doc", value := hook.doc_attr_text }

/-! ## Code Emitter (`hook_impl`, mod.rs 111-239)

The emitted token stream is embedded structurally: one Lean record per
`quote!` template, one field per interpolation hole; fixed syntax of a
template (e.g. the `mut self` receiver of `fn run`, the
`Box<dyn … + FnOnce(&mut HookContext) …>` shape, the
`#[cfg(doctest)]`/`#[cfg(not(doctest))]` split) is carried by the
record's constructor and documented on it. -/

/-- The context parameter name, `Ident::new("_ctx", …)` (mod.rs 141). -/
def ctx_ident : String := "_ctx"

/-- The inner function name, `Ident::new("inner_fn", …)` (mod.rs 146). -/
def inner_fn_ident : String := "inner_fn"

/-- The generated provider struct name, `Ident::new("HookProvider", …)`
(mod.rs 186). -/
def hook_struct_name : String := "HookProvider"

/-- The inner implementation function (mod.rs 155):
`fn inner_fn #generics (_ctx: &mut HookContext, #inputs) #inner_fn_rt
#where_clause #block`. -/
structure InnerFn : Type where
  ident : String
  generics : List GenericParam
  ctxParam : String
  inputs : List Param
  ret : Option Ty
  block : HBlock

/-- The boxed-provider emission (mod.rs 157-181): denotes
`let boxed_inner = Box::new(move |_ctx| #closureRet { inner_fn::<#turbofishTypes>(_ctx, #forwardedArgs) }) #cast;`
followed by `BoxedHook::<#hookLifetime, #boxedHookOutput>::new(boxed_inner)`.
The box is a `Box<dyn #hookLifetime + FnOnce(&mut HookContext) … >`:
type-erased (`dyn`), single-invocation (`FnOnce`) and bounded by the
hook lifetime; `castLifetime` records the explicit `as`-cast to that
type, present exactly when `with_output` holds. -/
structure BoxedEmission : Type where
  with_output : Bool
  closureCtxParam : String
  closureRet : Option Ty
  callee : String
  turbofishTypes : List String
  forwardedArgs : List String
  castLifetime : Option String
  hookLifetime : String
  boxedHookOutput : Option Ty

/-- The receiver mode of a generated method. -/
inductive SelfMode : Type where
  | value : SelfMode
  | refShared : SelfMode
  | refMut : SelfMode
deriving DecidableEq

/-- The struct-provider emission (mod.rs 182-219): denotes the struct
`struct HookProvider #generics { _marker: PhantomData<(…)>, args: (…) }`,
the impl `impl Hook for HookProvider { type Output = #outputTy;
fn run(mut self, _ctx: &mut HookContext) -> Self::Output { … } }`
(`runSelf` records the `mut self` receiver of the template), the
constructor `fn new(#ctorInputs) -> Self`, and the final expression
`HookProvider #call_generics ::new(#finalCallNewArgs)`. -/
structure StructEmission : Type where
  structName : String
  generics : List GenericParam
  phantomTypes : List String
  phantomLifetimes : List String
  argTypes : List Ty
  outputTy : Ty
  runSelf : SelfMode
  runCtxParam : String
  runUnpackedArgs : List String
  runCallee : String
  ctorInputs : List Param
  ctorStoredArgs : List String
  finalCallNewArgs : List String

/-- The provider expression ending the emitted public function body:
either the boxed adapter or the named struct provider. -/
inductive ProviderEmission : Type where
  | boxed (be : BoxedEmission) : ProviderEmission
  | structP (se : StructEmission) : ProviderEmission

/-- The `#[cfg(not(doctest))]` item (mod.rs 225-232): the public
function `#(#attrs)* #doc_attr #vis fn #ident #generics (#inputs)
#hook_return_type #where_clause { #inner_fn #inner_type_impl }`. -/
structure TransformedFn : Type where
  attrs : List Attr
  vis : Vis
  ident : String
  generics : List GenericParam
  inputs : List Param
  output : ReturnType
  innerFn : InnerFn
  provider : ProviderEmission

/-- The whole emitted token stream (mod.rs 224-236): the transformed
function under `#[cfg(not(doctest))]` and the original function,
verbatim, under `#[cfg(doctest)]`. -/
structure HookOutput : Type where
  notDoctest : TransformedFn
  doctest : ItemFn

/-- `hook_impl` (mod.rs 111-239), translated statement by statement.
The Rust function returns `syn::Result<TokenStream>` but no code path
constructs an error, so the model returns the output directly. -/
def hook_impl (hook : HookFn) : HookOutput :=
  let doc_attr := hook.doc_attr
  let original_fn := hook.inner
  let vis := original_fn.vis
  let sig := original_fn.sig
  let attrs := original_fn.attrs
  -- mod.rs 143-144: the body is rewritten in place by `BodyRewriter`.
  let block := BodyRewriter.visitBlock ctx_ident original_fn.block
  let hook_sig := HookSignature.rewrite sig
  let generics := hook_sig.sig.generics
  let hook_return_type := hook_sig.sig.output
  let output_type := hook_sig.output_type
  let input_args := hook_sig.input_args
  -- mod.rs 150-153: the inner return annotation reuses the original
  -- arrow but the rewritten output type.
  let inner_fn_rt : Option Ty :=
    match sig.output with
    | .default => none
    | .ty _ => some output_type
  let inner_fn : InnerFn :=
    { ident := inner_fn_ident
      generics := generics
      ctxParam := ctx_ident
      inputs := hook_sig.sig.inputs
      ret := inner_fn_rt
      block := block }
  let inner_type_impl : ProviderEmission :=
    if hook_sig.needs_boxing then
      -- mod.rs 157-181
      let with_output : Bool :=
        match hook_sig.output_type with
        | .implTrait _ => false
        | _ => true
      .boxed
        { with_output := with_output
          closureCtxParam := ctx_ident
          closureRet := if with_output then inner_fn_rt else none
          callee := inner_fn_ident
          turbofishTypes := typeParamNames generics
          forwardedArgs := input_args
          castLifetime := if with_output then some hook_sig.hook_lifetime else none
          hookLifetime := hook_sig.hook_lifetime
          boxedHookOutput := if with_output then some output_type else none }
    else
      -- mod.rs 182-219
      .structP
        { structName := hook_struct_name
          generics := generics
          phantomTypes := hook_sig.phantom_types
          phantomLifetimes := hook_sig.phantom_lifetimes
          argTypes := hook_sig.input_types
          outputTy := output_type
          runSelf := .value
          runCtxParam := ctx_ident
          runUnpackedArgs := input_args
          runCallee := inner_fn_ident
          ctorInputs := hook_sig.sig.inputs
          ctorStoredArgs := input_args
          finalCallNewArgs := input_args }
  { notDoctest :=
      { attrs := attrs ++ [doc_attr]
        vis := vis
        ident := sig.ident
        generics := generics
        inputs := hook_sig.sig.inputs
        output := hook_return_type
        innerFn := inner_fn
        provider := inner_type_impl }
    doctest := original_fn }

/-! ## Auxiliary notions used by the theorems -/

namespace BodyRewriter

mutual

/-- Inverse direction used to characterize the rewrite: drop the first
argument of every `use_`-call, again treating closure and nested
function bodies as opaque.  Recovering the input exactly shows the
rewrite changed nothing except inserting a first argument into
`use_`-calls outside such nested scopes. -/
def unvisitExpr : HExpr → HExpr
  | .lit n => .lit n
  | .path name => .path name
  | .call callee .nil => .call callee .nil
  | .call callee (.cons a rest) =>
    if isHookCall callee then .call callee (unvisitArgs rest)
    else .call callee (.cons (unvisitExpr a) (unvisitArgs rest))
  | .ifE cond thenBr elseBr =>
    .ifE (unvisitExpr cond) (unvisitBlock thenBr) (unvisitBlock elseBr)
  | .loopE body => .loopE (unvisitBlock body)
  | .matchE scrut arms => .matchE (unvisitExpr scrut) (unvisitArms arms)
  | .blockE body => .blockE (unvisitBlock body)
  | .closure params body => .closure params body

/-- Drop the inserted first argument inside each argument. -/
def unvisitArgs : HArgs → HArgs
  | .nil => .nil
  | .cons e rest => .cons (unvisitExpr e) (unvisitArgs rest)

/-- Drop the inserted first argument inside each arm body. -/
def unvisitArms : HArms → HArms
  | .nil => .nil
  | .cons pat body rest => .cons pat (unvisitExpr body) (unvisitArms rest)

/-- Statement direction of `unvisitExpr`. -/
def unvisitStmt : HStmt → HStmt
  | .exprS e => .exprS (unvisitExpr e)
  | .letS name value => .letS name (unvisitExpr value)
  | .fnItem name params body => .fnItem name params body

/-- Block direction of `unvisitExpr`. -/
def unvisitBlock : HBlock → HBlock
  | .nil => .nil
  | .cons s rest => .cons (unvisitStmt s) (unvisitBlock rest)

end

end BodyRewriter

/-- Does `pat` occur as a contiguous sublist of `s`? -/
def occursIn (pat : List Char) : List Char → Bool
  | [] => pat.isEmpty
  | c :: rest => pat.isPrefixOf (c :: rest) || occursIn pat rest

/-- Walking down `pre`, `pat` never matches before `pre` is exhausted
in the list `pre ++ pat ++ suf`: the occurrence of `pat` after `pre`
is the leftmost one. -/
def noEarlyOccur (pat suf : List Char) : List Char → Bool
  | [] => true
  | c :: pre => !(pat.isPrefixOf (c :: (pre ++ pat ++ suf))) && noEarlyOccur pat suf pre

/-! ## Example fixtures (concrete inputs for witnesses and
counterexamples) -/

/-- Scenario A input: `pub fn use_counter(initial: i32) -> i32 {
use_state(initial) }`. -/
def exCounterFn : ItemFn :=
  { attrs := []
    vis := .pub
    sig :=
      { constness := false, asyncness := false, unsafety := false, abi := false
        ident := "use_counter"
        generics := []
        inputs := [⟨"initial", .path "i32" .nil⟩]
        output := .ty (.path "i32" .nil) }
    block := .cons (.exprS (.call "use_state" (.cons (.path "initial") .nil))) .nil }

/-- Scenario B input: `pub fn use_thing() -> impl Clone { 3 }`. -/
def exThingFn : ItemFn :=
  { attrs := []
    vis := .pub
    sig :=
      { constness := false, asyncness := false, unsafety := false, abi := false
        ident := "use_thing"
        generics := []
        inputs := []
        output := .ty (.implTrait ["Clone"]) }
    block := .cons (.exprS (.lit 3)) .nil }

/-- A hook with no return-type annotation:
`fn use_log_render() { use_effect(0) }`. -/
def exNoRetFn : ItemFn :=
  { attrs := []
    vis := .inherited
    sig :=
      { constness := false, asyncness := false, unsafety := false, abi := false
        ident := "use_log_render"
        generics := []
        inputs := []
        output := .default }
    block := .cons (.exprS (.call "use_effect" (.cons (.lit 0) .nil))) .nil }

/-- Scenario C input: a function named `compute_value` (missing the
mandated prefix), otherwise unremarkable. -/
def exComputeValueFn : ItemFn :=
  { attrs := []
    vis := .inherited
    sig :=
      { constness := false, asyncness := false, unsafety := false, abi := false
        ident := "compute_value"
        generics := []
        inputs := []
        output := .ty (.path "i32" .nil) }
    block := .cons (.exprS (.lit 1)) .nil }

/-! ## Helper lemmas -/

mutual

/-- Dropping the inserted first argument recovers the original
expression: the rewrite only inserts the context argument into
`use_`-calls and touches nothing else. -/
theorem unvisit_visit_expr (ctx : String) :
    ∀ e : HExpr, BodyRewriter.unvisitExpr (BodyRewriter.visitExpr ctx e) = e
  | .lit _ => rfl
  | .path _ => rfl
  | .call callee .nil => by
    by_cases h : BodyRewriter.isHookCall callee = true
    · simp only [BodyRewriter.visitExpr, BodyRewriter.visitArgs, if_pos h,
        BodyRewriter.unvisitExpr, BodyRewriter.unvisitArgs]
    · simp only [BodyRewriter.visitExpr, BodyRewriter.visitArgs, if_neg h,
        BodyRewriter.unvisitExpr]
  | .call callee (.cons a as) => by
    have iha := unvisit_visit_expr ctx a
    have ihas := unvisit_visit_args ctx as
    by_cases h : BodyRewriter.isHookCall callee = true
    · simp only [BodyRewriter.visitExpr, BodyRewriter.visitArgs,
        BodyRewriter.unvisitExpr, BodyRewriter.unvisitArgs, if_pos h, iha, ihas]
    · simp only [BodyRewriter.visitExpr, BodyRewriter.visitArgs,
        BodyRewriter.unvisitExpr, BodyRewriter.unvisitArgs, if_neg h, iha, ihas]
  | .ifE cond thenBr elseBr => by
    simp [BodyRewriter.visitExpr, BodyRewriter.unvisitExpr,
      unvisit_visit_expr ctx cond, unvisit_visit_block ctx thenBr,
      unvisit_visit_block ctx elseBr]
  | .loopE body => by
    simp [BodyRewriter.visitExpr, BodyRewriter.unvisitExpr, unvisit_visit_block ctx body]
  | .matchE scrut arms => by
    simp [BodyRewriter.visitExpr, BodyRewriter.unvisitExpr,
      unvisit_visit_expr ctx scrut, unvisit_visit_arms ctx arms]
  | .blockE body => by
    simp [BodyRewriter.visitExpr, BodyRewriter.unvisitExpr, unvisit_visit_block ctx body]
  | .closure _ _ => rfl
termination_by e => sizeOf e

/-- Argument-list direction of `unvisit_visit_expr`. -/
theorem unvisit_visit_args (ctx : String) :
    ∀ args : HArgs, BodyRewriter.unvisitArgs (BodyRewriter.visitArgs ctx args) = args
  | .nil => rfl
  | .cons e rest => by
    simp [BodyRewriter.visitArgs, BodyRewriter.unvisitArgs,
      unvisit_visit_expr ctx e, unvisit_visit_args ctx rest]
termination_by args => sizeOf args

/-- Match-arm direction of `unvisit_visit_expr`. -/
theorem unvisit_visit_arms (ctx : String) :
    ∀ arms : HArms, BodyRewriter.unvisitArms (BodyRewriter.visitArms ctx arms) = arms
  | .nil => rfl
  | .cons pat body rest => by
    simp [BodyRewriter.visitArms, BodyRewriter.unvisitArms,
      unvisit_visit_expr ctx body, unvisit_visit_arms ctx rest]
termination_by arms => sizeOf arms

/-- Statement direction of `unvisit_visit_expr`. -/
theorem unvisit_visit_stmt (ctx : String) :
    ∀ s : HStmt, BodyRewriter.unvisitStmt (BodyRewriter.visitStmt ctx s) = s
  | .exprS e => by
    simp [BodyRewriter.visitStmt, BodyRewriter.unvisitStmt, unvisit_visit_expr ctx e]
  | .letS name value => by
    simp [BodyRewriter.visitStmt, BodyRewriter.unvisitStmt, unvisit_visit_expr ctx value]
  | .fnItem _ _ _ => rfl
termination_by s => sizeOf s

/-- Block direction of `unvisit_visit_expr`. -/
theorem unvisit_visit_block (ctx : String) :
    ∀ b : HBlock, BodyRewriter.unvisitBlock (BodyRewriter.visitBlock ctx b) = b
  | .nil => rfl
  | .cons s rest => by
    simp [BodyRewriter.visitBlock, BodyRewriter.unvisitBlock,
      unvisit_visit_stmt ctx s, unvisit_visit_block ctx rest]
termination_by b => sizeOf b

end

/-- When the pattern occurs nowhere in the list, replacement is the
identity. -/
theorem replaceList_of_not_occurs (pat rep : List Char) :
    ∀ s : List Char, occursIn pat s = false → replaceList pat rep s = s
  | [] => fun _ => by simp [replaceList]
  | c :: rest => fun h => by
    have h' : pat.isPrefixOf (c :: rest) = false ∧ occursIn pat rest = false :=
      Bool.or_eq_false_iff.mp h
    rw [replaceList, if_neg, replaceList_of_not_occurs pat rep rest h'.2]
    intro hcon
    rw [h'.1] at hcon
    exact absurd hcon.2 (by simp)

/-- When the occurrence of the pattern after `pre` is the leftmost one
and the pattern does not occur in `suf`, replacement substitutes
exactly that occurrence. -/
theorem replaceList_single (pat rep suf : List Char) (hpat : 1 ≤ pat.length)
    (hsuf : occursIn pat suf = false) :
    ∀ pre : List Char, noEarlyOccur pat suf pre = true →
      replaceList pat rep (pre ++ pat ++ suf) = pre ++ rep ++ suf
  | [] => fun _ => by
    match pat, hpat, hsuf with
    | p :: pt, _, hsuf =>
      have hpfx : (p :: pt).isPrefixOf ((p :: pt) ++ suf) = true :=
        List.isPrefixOf_iff_prefix.mpr (List.prefix_append (p :: pt) suf)
      simp only [List.nil_append]
      rw [show (p :: pt) ++ suf = p :: (pt ++ suf) from rfl, replaceList, if_pos]
      · rw [show p :: (pt ++ suf) = (p :: pt) ++ suf from rfl, List.drop_left,
          replaceList_of_not_occurs (p :: pt) rep suf hsuf]
      · exact ⟨by simp, hpfx⟩
  | c :: pre => fun h => by
    have h' : pat.isPrefixOf (c :: (pre ++ pat ++ suf)) = false ∧
        noEarlyOccur pat suf pre = true := by
      have := Bool.and_eq_true_iff.mp h
      exact ⟨by simpa using this.1, this.2⟩
    have ih := replaceList_single pat rep suf hpat hsuf pre h'.2
    rw [show (c :: pre) ++ pat ++ suf = c :: (pre ++ pat ++ suf) from rfl,
      replaceList, if_neg, ih]
    · rfl
    · intro hcon
      rw [h'.1] at hcon
      exact absurd hcon.2 (by simp)

/-! ## Claim theorems -/

/-- C1 (counterexample): the claimed direction of `needs_boxing` fails
on concrete inputs.  The claim states that an opaque/existential
(impl-trait) return type yields `needs_boxing = false` and an absent
return-type annotation yields `needs_boxing = true`; on
`use_thing() -> impl Clone` the flag is `true`, and on the
annotation-free `use_log_render()` it is `false` — the opposite of the
claim on both inputs. -/
theorem needs_boxing_claim_counterexample :
    (HookSignature.rewrite exThingFn.sig).needs_boxing = true ∧
    (HookSignature.rewrite exNoRetFn.sig).needs_boxing = false :=
  ⟨rfl, rfl⟩

/-- C1 (amended): `needs_boxing` is true exactly when the declared
return type IS written as a single opaque/existential (impl-trait)
constraint; any other named return type, and an absent return-type
annotation, yield `needs_boxing = false`. -/
theorem needs_boxing_iff_impl_trait_return (sig : Signature) :
    (HookSignature.rewrite sig).needs_boxing = true ↔
      ∃ bounds, sig.output = ReturnType.ty (Ty.implTrait bounds) := by
  cases h : sig.output with
  | default => simp [HookSignature.rewrite, h]
  | ty t => cases t <;> simp [HookSignature.rewrite, h]

/-- C2: for a hook whose return type is an impl-trait constraint,
`needs_boxing` is true and the emitted body ends in the boxed-provider
expression: a `Box::new(move |_ctx| inner_fn::<…>(_ctx, args…))`
(single-invocation `FnOnce`, type-erased `dyn`, bounded by the hook
lifetime) wrapped in `BoxedHook::<#hook_lifetime, …>::new`, not a named
struct. -/
theorem impl_trait_return_boxed (f : ItemFn) (bounds : List String)
    (h : f.sig.output = ReturnType.ty (Ty.implTrait bounds)) :
    (HookSignature.rewrite f.sig).needs_boxing = true ∧
    (hook_impl ⟨f⟩).notDoctest.provider = ProviderEmission.boxed
      { with_output := false
        closureCtxParam := ctx_ident
        closureRet := none
        callee := inner_fn_ident
        turbofishTypes := typeParamNames f.sig.generics
        forwardedArgs := f.sig.inputs.map Param.name
        castLifetime := none
        hookLifetime := "hook"
        boxedHookOutput := none } := by
  constructor
  · simp [HookSignature.rewrite, h]
  · simp [hook_impl, HookSignature.rewrite, HookSignature.input_args, h]

/-- C2 witness: the scenario B input `use_thing() -> impl Clone`. -/
theorem impl_trait_return_boxed_witness :
    (HookSignature.rewrite exThingFn.sig).needs_boxing = true ∧
    (hook_impl ⟨exThingFn⟩).notDoctest.provider = ProviderEmission.boxed
      { with_output := false
        closureCtxParam := ctx_ident
        closureRet := none
        callee := inner_fn_ident
        turbofishTypes := typeParamNames exThingFn.sig.generics
        forwardedArgs := exThingFn.sig.inputs.map Param.name
        castLifetime := none
        hookLifetime := "hook"
        boxedHookOutput := none } :=
  impl_trait_return_boxed exThingFn ["Clone"] rfl

/-- C3: with `needs_boxing = false` the emitted body defines the inner
implementation function (rewritten body, original parameters) and the
generic data-holder struct: argument fields, phantom markers for
otherwise-unused generic and lifetime parameters, a `run` operation
that unpacks the stored arguments and calls `inner_fn` with the
context, a constructor over the original parameter list, and the final
expression constructing the provider from the original arguments. -/
theorem struct_provider_emission (f : ItemFn)
    (h : (HookSignature.rewrite f.sig).needs_boxing = false) :
    (hook_impl ⟨f⟩).notDoctest.innerFn.block =
      BodyRewriter.visitBlock ctx_ident f.block ∧
    (hook_impl ⟨f⟩).notDoctest.innerFn.inputs = f.sig.inputs ∧
    (hook_impl ⟨f⟩).notDoctest.innerFn.ctxParam = ctx_ident ∧
    (hook_impl ⟨f⟩).notDoctest.provider = ProviderEmission.structP
      { structName := hook_struct_name
        generics := f.sig.generics
        phantomTypes := (HookSignature.rewrite f.sig).phantom_types
        phantomLifetimes := (HookSignature.rewrite f.sig).phantom_lifetimes
        argTypes := f.sig.inputs.map Param.ty
        outputTy := (HookSignature.rewrite f.sig).output_type
        runSelf := .value
        runCtxParam := ctx_ident
        runUnpackedArgs := f.sig.inputs.map Param.name
        runCallee := inner_fn_ident
        ctorInputs := f.sig.inputs
        ctorStoredArgs := f.sig.inputs.map Param.name
        finalCallNewArgs := f.sig.inputs.map Param.name } := by
  refine ⟨rfl, rfl, rfl, ?_⟩
  have h' : (match f.sig.output with
      | ReturnType.ty (Ty.implTrait _) => true
      | _ => false) = false := h
  simp [hook_impl, h', HookSignature.input_args, HookSignature.input_types,
    HookSignature.rewrite]

/-- C3 witness: the scenario A input
`use_counter(initial: i32) -> i32 { use_state(initial) }`. -/
theorem struct_provider_emission_witness :
    (hook_impl ⟨exCounterFn⟩).notDoctest.innerFn.block =
      BodyRewriter.visitBlock ctx_ident exCounterFn.block ∧
    (hook_impl ⟨exCounterFn⟩).notDoctest.innerFn.inputs = exCounterFn.sig.inputs ∧
    (hook_impl ⟨exCounterFn⟩).notDoctest.innerFn.ctxParam = ctx_ident ∧
    (hook_impl ⟨exCounterFn⟩).notDoctest.provider = ProviderEmission.structP
      { structName := hook_struct_name
        generics := exCounterFn.sig.generics
        phantomTypes := (HookSignature.rewrite exCounterFn.sig).phantom_types
        phantomLifetimes := (HookSignature.rewrite exCounterFn.sig).phantom_lifetimes
        argTypes := exCounterFn.sig.inputs.map Param.ty
        outputTy := (HookSignature.rewrite exCounterFn.sig).output_type
        runSelf := .value
        runCtxParam := ctx_ident
        runUnpackedArgs := exCounterFn.sig.inputs.map Param.name
        runCallee := inner_fn_ident
        ctorInputs := exCounterFn.sig.inputs
        ctorStoredArgs := exCounterFn.sig.inputs.map Param.name
        finalCallNewArgs := exCounterFn.sig.inputs.map Param.name } :=
  struct_provider_emission exCounterFn rfl

/-- C4: the validator emits one diagnostic per distinct violated
constraint (async, const, extern abi, unsafe, missing `use_` prefix),
each exactly once — so the count is the number of violated constraints
and the emitted spans are pairwise distinct — a valid input yields no
diagnostics, and parsing always returns the `HookFn` unchanged. -/
theorem validator_diagnostics (f : ItemFn) :
    (HookFn.parse f).1.inner = f ∧
    (HookFn.parse f).2.length =
      ((if f.sig.asyncness then 1 else 0) + (if f.sig.constness then 1 else 0) +
        (if f.sig.abi then 1 else 0) + (if f.sig.unsafety then 1 else 0) +
        (if strStartsWith f.sig.ident "use_" then 0 else 1)) ∧
    ((HookFn.parse f).2.map Diagnostic.loc).Nodup ∧
    (f.sig.asyncness = false ∧ f.sig.constness = false ∧ f.sig.abi = false ∧
      f.sig.unsafety = false ∧ strStartsWith f.sig.ident "use_" = true →
      (HookFn.parse f).2 = []) := by
  refine ⟨rfl, ?_, ?_, ?_⟩
  · cases ha : f.sig.asyncness <;> cases hc : f.sig.constness <;>
      cases hb : f.sig.abi <;> cases hu : f.sig.unsafety <;>
      cases hi : strStartsWith f.sig.ident "use_" <;>
      simp [HookFn.parse, ha, hc, hb, hu, hi]
  · cases ha : f.sig.asyncness <;> cases hc : f.sig.constness <;>
      cases hb : f.sig.abi <;> cases hu : f.sig.unsafety <;>
      cases hi : strStartsWith f.sig.ident "use_" <;>
      simp [HookFn.parse, ha, hc, hb, hu, hi]
  · rintro ⟨ha, hc, hb, hu, hi⟩
    simp [HookFn.parse, ha, hc, hb, hu, hi]

/-- C4 witness: the valid scenario A input produces zero diagnostics
and is returned unchanged. -/
theorem validator_diagnostics_witness :
    (HookFn.parse exCounterFn).1.inner = exCounterFn ∧
    (HookFn.parse exCounterFn).2 = [] :=
  ⟨(validator_diagnostics exCounterFn).1,
    (validator_diagnostics exCounterFn).2.2.2 ⟨rfl, rfl, rfl, rfl, by decide⟩⟩

/-- C5: an input violating only the naming convention produces exactly
one diagnostic, pointing at the span of the function's name
(`sig.ident`), and the pipeline still produces output: the parsed
definition is returned unchanged and `hook_impl` runs on it. -/
theorem missing_prefix_single_diagnostic (f : ItemFn)
    (ha : f.sig.asyncness = false) (hc : f.sig.constness = false)
    (hb : f.sig.abi = false) (hu : f.sig.unsafety = false)
    (hi : strStartsWith f.sig.ident "use_" = false) :
    (HookFn.parse f).2 = [⟨DiagLoc.ident, nameMsg⟩] ∧
    (HookFn.parse f).1.inner = f ∧
    (hook_impl (HookFn.parse f).1).doctest = f := by
  refine ⟨?_, rfl, rfl⟩
  simp [HookFn.parse, ha, hc, hb, hu, hi]

/-- C5 witness: the scenario C name `compute_value` with no other
violation. -/
theorem missing_prefix_single_diagnostic_witness :
    (HookFn.parse exComputeValueFn).2 = [⟨DiagLoc.ident, nameMsg⟩] ∧
    (HookFn.parse exComputeValueFn).1.inner = exComputeValueFn ∧
    (hook_impl (HookFn.parse exComputeValueFn).1).doctest = exComputeValueFn :=
  missing_prefix_single_diagnostic exComputeValueFn rfl rfl rfl rfl (by decide)

/-- C6: the body rewrite inserts the context reference as first
argument of exactly the calls matching the `use_` convention (original
arguments shifted right), recurses into conditionals, loops, match
arms and blocks, leaves closure and nested-function bodies untouched,
leaves non-invocation expressions structurally unchanged — witnessed
by the left inverse that merely drops the first argument of
`use_`-calls — and is deterministic (a pure function of body and
context name). -/
theorem body_rewriter_contract (ctx : String) :
    (∀ b : HBlock, BodyRewriter.unvisitBlock (BodyRewriter.visitBlock ctx b) = b) ∧
    (∀ callee args, BodyRewriter.visitExpr ctx (.call callee args) =
      if BodyRewriter.isHookCall callee then
        .call callee (.cons (.path ctx) (BodyRewriter.visitArgs ctx args))
      else .call callee (BodyRewriter.visitArgs ctx args)) ∧
    (∀ cond thenBr elseBr, BodyRewriter.visitExpr ctx (.ifE cond thenBr elseBr) =
      .ifE (BodyRewriter.visitExpr ctx cond) (BodyRewriter.visitBlock ctx thenBr)
        (BodyRewriter.visitBlock ctx elseBr)) ∧
    (∀ body, BodyRewriter.visitExpr ctx (.loopE body) =
      .loopE (BodyRewriter.visitBlock ctx body)) ∧
    (∀ scrut arms, BodyRewriter.visitExpr ctx (.matchE scrut arms) =
      .matchE (BodyRewriter.visitExpr ctx scrut) (BodyRewriter.visitArms ctx arms)) ∧
    (∀ params body, BodyRewriter.visitExpr ctx (.closure params body) =
      .closure params body) ∧
    (∀ name params body, BodyRewriter.visitStmt ctx (.fnItem name params body) =
      .fnItem name params body) ∧
    (∀ name, BodyRewriter.visitExpr ctx (.path name) = .path name) ∧
    (∀ b : HBlock, BodyRewriter.visitBlock ctx b = BodyRewriter.visitBlock ctx b) :=
  ⟨unvisit_visit_block ctx,
    fun callee args => by simp only [BodyRewriter.visitExpr],
    fun cond thenBr elseBr => by simp only [BodyRewriter.visitExpr],
    fun body => by simp only [BodyRewriter.visitExpr],
    fun scrut arms => by simp only [BodyRewriter.visitExpr],
    fun params body => by simp only [BodyRewriter.visitExpr],
    fun name params body => by simp only [BodyRewriter.visitStmt],
    fun name => by simp only [BodyRewriter.visitExpr],
    fun _ => rfl⟩

/-- C7: the documentation text is a pure function of the hook (running
it twice yields the identical string), and it is the rendered original
signature whose body placeholder marker has been textually substituted
by the elision notice, provided the marker does not occur in the
rendered signature itself. -/
theorem doc_attr_deterministic_elision (hook : HookFn)
    (hpre : noEarlyOccur dummyBodyMarker.data (renderPost hook.inner).data
      (renderPre hook.inner).data = true)
    (hsuf : occursIn dummyBodyMarker.data (renderPost hook.inner).data = false) :
    hook.doc_attr_text = hook.doc_attr_text ∧
    hook.doc_attr_text =
      docNote (renderPre hook.inner ++ elisionNotice ++ renderPost hook.inner) := by
  refine ⟨rfl, ?_⟩
  have key : strReplace (renderFnWithBody hook.inner dummyBodyMarker)
      dummyBodyMarker elisionNotice =
      renderPre hook.inner ++ elisionNotice ++ renderPost hook.inner := by
    apply String.ext
    show replaceList dummyBodyMarker.data elisionNotice.data
        (renderPre hook.inner ++ dummyBodyMarker ++ renderPost hook.inner).data =
      (renderPre hook.inner ++ elisionNotice ++ renderPost hook.inner).data
    rw [String.data_append, String.data_append, String.data_append,
      String.data_append]
    exact replaceList_single dummyBodyMarker.data elisionNotice.data
      (renderPost hook.inner).data (by decide) hsuf (renderPre hook.inner).data hpre
  show docNote (strReplace (renderFnWithBody hook.inner dummyBodyMarker)
      dummyBodyMarker elisionNotice) = _
  rw [key]

/-- C7 witness: the scenario A hook, with the non-occurrence side
conditions checked by evaluation. -/
theorem doc_attr_deterministic_elision_witness :
    HookFn.doc_attr_text ⟨exCounterFn⟩ = HookFn.doc_attr_text ⟨exCounterFn⟩ ∧
    HookFn.doc_attr_text ⟨exCounterFn⟩ =
      docNote (renderPre exCounterFn ++ elisionNotice ++ renderPost exCounterFn) :=
  doc_attr_deterministic_elision ⟨exCounterFn⟩ (by decide) (by decide)

/-- C8: under the doctest build mode — the `#[cfg(doctest)]` item, and
only there — the engine emits the original definition verbatim, name
and signature included; the `#[cfg(not(doctest))]` item instead holds
the transformed machinery (its inner function carries the rewritten
body, not the original). -/
theorem doctest_mode_emits_original (f : ItemFn) :
    (hook_impl ⟨f⟩).doctest = f ∧
    (hook_impl ⟨f⟩).doctest.sig = f.sig ∧
    (hook_impl ⟨f⟩).notDoctest.innerFn.block =
      BodyRewriter.visitBlock ctx_ident f.block :=
  ⟨rfl, rfl, rfl⟩

/-- C9 (counterexample): the emitted public function does NOT carry
exactly the original attribute list — the synthesized documentation
attribute is appended — so "only the function body differs" fails on
`use_counter`, whose input has no attributes while the emitted
function has one. -/
theorem emitted_attrs_changed_counterexample :
    (hook_impl ⟨exCounterFn⟩).notDoctest.attrs ≠ exCounterFn.attrs := by
  intro hcon
  have hlen := congrArg List.length hcon
  simp [hook_impl, exCounterFn] at hlen

/-- C9 (amended): the emitted public function preserves the original
name, visibility, generic parameter list, parameter list and return
annotation; its attribute list is the original list with the
synthesized documentation attribute appended (so apart from that
appended attribute, only the body differs). -/
theorem emitter_preserves_header (f : ItemFn) :
    (hook_impl ⟨f⟩).notDoctest.ident = f.sig.ident ∧
    (hook_impl ⟨f⟩).notDoctest.vis = f.vis ∧
    (hook_impl ⟨f⟩).notDoctest.generics = f.sig.generics ∧
    (hook_impl ⟨f⟩).notDoctest.inputs = f.sig.inputs ∧
    (hook_impl ⟨f⟩).notDoctest.output = f.sig.output ∧
    (hook_impl ⟨f⟩).notDoctest.attrs = f.attrs ++ [HookFn.doc_attr ⟨f⟩] :=
  ⟨rfl, rfl, rfl, rfl, rfl, rfl⟩

/-- C10: under the struct-provider strategy the generated `run`
operation takes `self` by value (`fn run(mut self, …)`), so a
constructed provider instance can be invoked at most once. -/
theorem struct_provider_run_consumes_self (f : ItemFn)
    (h : (HookSignature.rewrite f.sig).needs_boxing = false) :
    ∃ se : StructEmission,
      (hook_impl ⟨f⟩).notDoctest.provider = ProviderEmission.structP se ∧
      se.runSelf = SelfMode.value := by
  refine ⟨{ structName := hook_struct_name
            generics := f.sig.generics
            phantomTypes := (HookSignature.rewrite f.sig).phantom_types
            phantomLifetimes := (HookSignature.rewrite f.sig).phantom_lifetimes
            argTypes := f.sig.inputs.map Param.ty
            outputTy := (HookSignature.rewrite f.sig).output_type
            runSelf := .value
            runCtxParam := ctx_ident
            runUnpackedArgs := f.sig.inputs.map Param.name
            runCallee := inner_fn_ident
            ctorInputs := f.sig.inputs
            ctorStoredArgs := f.sig.inputs.map Param.name
            finalCallNewArgs := f.sig.inputs.map Param.name }, ?_, rfl⟩
  have h' : (match f.sig.output with
      | ReturnType.ty (Ty.implTrait _) => true
      | _ => false) = false := h
  simp [hook_impl, h', HookSignature.input_args, HookSignature.input_types,
    HookSignature.rewrite]

/-- C10 witness: the struct-provider emitted for `use_counter` has a
by-value `run` receiver. -/
theorem struct_provider_run_consumes_self_witness :
    ∃ se : StructEmission,
      (hook_impl ⟨exCounterFn⟩).notDoctest.provider = ProviderEmission.structP se ∧
      se.runSelf = SelfMode.value :=
  struct_provider_run_consumes_self exCounterFn rfl

end YewMacro
